import Mathlib

/-!
Shallow embedding of the Wayland event-normalization layer of the repository
(`src/sctk/src/sctk_event.rs`, `src/sctk/src/clipboard.rs`).

Conventions of the embedding:
* machine integers (`u32`, ids) become `Nat`; no arithmetic in this layer
  overflows, so no masking is needed;
* `HashMap<ObjectId, SurfaceIdWrapper>` is modelled through its `get`
  interface as a function `ObjectId → Option SurfaceIdWrapper`;
* the `&mut Modifiers` parameter of `SctkEvent::to_native` becomes explicit
  state passing: the Lean function returns the event list together with the
  modifier state after the call;
* a Rust panic (the `unwrap()` calls in the window-configure arm) is modelled
  by `none` in the first component of the result; every non-panicking arm
  returns `some`.
-/

namespace IcedSctk

/-- Stable application-level surface id (`iced` `window::Id`). -/
abbrev SurfaceId := Nat

/-- Ephemeral platform object id (wayland `ObjectId`); surfaces, seats,
keyboards, pointers and outputs are all identified by such ids. -/
abbrev ObjectId := Nat

/-- Mirror of `application::SurfaceIdWrapper`: the typed surface identity a
platform handle resolves to. -/
inductive SurfaceIdWrapper where
  | LayerSurface (id : SurfaceId)
  | Window (id : SurfaceId)
  | Popup (id : SurfaceId)
  | Dnd (id : SurfaceId)
  | SessionLock (id : SurfaceId)
deriving DecidableEq, Repr

/-- Mirror of `SurfaceIdWrapper::inner`: the wrapped stable id. -/
def SurfaceIdWrapper.inner : SurfaceIdWrapper → SurfaceId
  | .LayerSurface id => id
  | .Window id => id
  | .Popup id => id
  | .Dnd id => id
  | .SessionLock id => id

/-- View of `HashMap<ObjectId, SurfaceIdWrapper>` through its `get` method. -/
abbrev Registry := ObjectId → Option SurfaceIdWrapper

/-- Mirror of `sctk::seat::keyboard::Modifiers`: the tracked modifier mask. -/
structure Modifiers where
  ctrl : Bool
  alt : Bool
  shift : Bool
  caps_lock : Bool
  logo : Bool
  num_lock : Bool
deriving DecidableEq, Repr

/-- Mirror of the portable `keyboard::Modifiers` bitset of the normalized
events. -/
structure NativeModifiers where
  shift : Bool
  ctrl : Bool
  alt : Bool
  logo : Bool
deriving DecidableEq, Repr

/-- Modelled from the spec: `conversion::modifiers_to_native` (the
`conversion` module is not among the provided sources). Per the spec the
modifier state is a bitset over shift/ctrl/alt/super; the conversion re-tags
the platform mask as the portable mask bit for bit. -/
def modifiers_to_native (m : Modifiers) : NativeModifiers :=
  { shift := m.shift, ctrl := m.ctrl, alt := m.alt, logo := m.logo }

/-- Named logical keys that the modelled keysym table produces. -/
inductive NamedKey where
  | Escape
  | Enter
  | Shift
  | Control
  | Alt
  | Super
deriving DecidableEq, Repr

/-- Mirror of the portable `keyboard::Key`: a named key, a literal character
key, or the unidentified sentinel. -/
inductive Key where
  | Named (k : NamedKey)
  | Character (s : String)
  | Unidentified
deriving DecidableEq, Repr

/-- Mirror of `keyboard::Location`. -/
inductive Location where
  | Standard
  | Left
  | Right
  | Numpad
deriving DecidableEq, Repr

/-- Modelled from the spec: `keymap::keysym_to_key` (file `keymap.rs` is not
among the provided sources). Per the spec this is a closed mapping from raw
keysyms to logical keys with an explicit unidentified fallback; printable
ASCII keysyms map to their literal character, the usual named keysyms map to
named keys, everything else is `Unidentified`. -/
def keysym_to_key (keysym : Nat) : Key :=
  if 0x20 ≤ keysym ∧ keysym ≤ 0x7e then
    .Character (String.mk [Char.ofNat keysym])
  else if keysym = 0xff1b then .Named .Escape
  else if keysym = 0xff0d ∨ keysym = 0xff8d then .Named .Enter
  else if keysym = 0xffe1 ∨ keysym = 0xffe2 then .Named .Shift
  else if keysym = 0xffe3 ∨ keysym = 0xffe4 then .Named .Control
  else if keysym = 0xffe9 ∨ keysym = 0xffea then .Named .Alt
  else if keysym = 0xffeb ∨ keysym = 0xffec then .Named .Super
  else .Unidentified

/-- Modelled from the spec: `keymap::keysym_location` (file `keymap.rs` is
not among the provided sources). Per the spec it classifies the left/right
and numpad positional duals and defaults to the standard location. -/
def keysym_location (keysym : Nat) : Location :=
  if keysym = 0xffe1 ∨ keysym = 0xffe3 ∨ keysym = 0xffe9 ∨ keysym = 0xffeb
  then .Left
  else if keysym = 0xffe2 ∨ keysym = 0xffe4 ∨ keysym = 0xffea ∨ keysym = 0xffec
  then .Right
  else if 0xff80 ≤ keysym ∧ keysym ≤ 0xffbd then .Numpad
  else .Standard

end IcedSctk

namespace IcedSctk

/-- Mirror of the portable `keyboard::PhysicalKey`: every physical key the
table in `sctk_event.rs` produces, plus the unidentified sentinel. -/
inductive PhysicalKey where
  | Escape
  | Digit1
  | Digit2
  | Digit3
  | Digit4
  | Digit5
  | Digit6
  | Digit7
  | Digit8
  | Digit9
  | Digit0
  | Minus
  | Equal
  | Backspace
  | Tab
  | KeyQ
  | KeyW
  | KeyE
  | KeyR
  | KeyT
  | KeyY
  | KeyU
  | KeyI
  | KeyO
  | KeyP
  | BracketLeft
  | BracketRight
  | Enter
  | ControlLeft
  | KeyA
  | KeyS
  | KeyD
  | KeyF
  | KeyG
  | KeyH
  | KeyJ
  | KeyK
  | KeyL
  | Semicolon
  | Quote
  | Backquote
  | ShiftLeft
  | Backslash
  | KeyZ
  | KeyX
  | KeyC
  | KeyV
  | KeyB
  | KeyN
  | KeyM
  | Comma
  | Period
  | Slash
  | ShiftRight
  | NumpadMultiply
  | AltLeft
  | Space
  | CapsLock
  | F1
  | F2
  | F3
  | F4
  | F5
  | F6
  | F7
  | F8
  | F9
  | F10
  | NumLock
  | ScrollLock
  | Numpad7
  | Numpad8
  | Numpad9
  | NumpadSubtract
  | Numpad4
  | Numpad5
  | Numpad6
  | NumpadAdd
  | Numpad1
  | Numpad2
  | Numpad3
  | Numpad0
  | NumpadDecimal
  | Lang5
  | IntlBackslash
  | F11
  | F12
  | IntlRo
  | Katakana
  | Hiragana
  | Convert
  | KanaMode
  | NonConvert
  | NumpadEnter
  | ControlRight
  | NumpadDivide
  | PrintScreen
  | AltRight
  | Home
  | ArrowUp
  | PageUp
  | ArrowLeft
  | ArrowRight
  | End
  | ArrowDown
  | PageDown
  | Insert
  | Delete
  | AudioVolumeMute
  | AudioVolumeDown
  | AudioVolumeUp
  | Power
  | NumpadEqual
  | Pause
  | NumpadComma
  | Lang1
  | Lang2
  | IntlYen
  | SuperLeft
  | SuperRight
  | ContextMenu
  | BrowserStop
  | Again
  | Props
  | Undo
  | Copy
  | Open
  | Paste
  | Find
  | Cut
  | Help
  | LaunchApp2
  | Sleep
  | WakeUp
  | LaunchMail
  | BrowserFavorites
  | LaunchApp1
  | BrowserBack
  | BrowserForward
  | Eject
  | MediaTrackNext
  | MediaPlayPause
  | MediaTrackPrevious
  | MediaStop
  | BrowserHome
  | BrowserRefresh
  | NumpadParenLeft
  | NumpadParenRight
  | F13
  | F14
  | F15
  | F16
  | F17
  | F18
  | F19
  | F20
  | F21
  | F22
  | F23
  | F24
  | Suspend
  | BrowserSearch
  | MediaSelect
  | Unidentified
deriving DecidableEq, Repr

/-- Mirror of `physical_key` (sctk_event.rs:947-1196): the closed table from
raw hardware scan codes to physical keys, with the `Unidentified` fallback
for every unmapped code (the deliberately-unsupported codes commented out in
the source, such as 95 and 101, have no arm and therefore also fall through
to the fallback). -/
def physical_key (rawcode : Nat) : PhysicalKey :=
  match rawcode with
  | 1 => .Escape
  | 2 => .Digit1
  | 3 => .Digit2
  | 4 => .Digit3
  | 5 => .Digit4
  | 6 => .Digit5
  | 7 => .Digit6
  | 8 => .Digit7
  | 9 => .Digit8
  | 10 => .Digit9
  | 11 => .Digit0
  | 12 => .Minus
  | 13 => .Equal
  | 14 => .Backspace
  | 15 => .Tab
  | 16 => .KeyQ
  | 17 => .KeyW
  | 18 => .KeyE
  | 19 => .KeyR
  | 20 => .KeyT
  | 21 => .KeyY
  | 22 => .KeyU
  | 23 => .KeyI
  | 24 => .KeyO
  | 25 => .KeyP
  | 26 => .BracketLeft
  | 27 => .BracketRight
  | 28 => .Enter
  | 29 => .ControlLeft
  | 30 => .KeyA
  | 31 => .KeyS
  | 32 => .KeyD
  | 33 => .KeyF
  | 34 => .KeyG
  | 35 => .KeyH
  | 36 => .KeyJ
  | 37 => .KeyK
  | 38 => .KeyL
  | 39 => .Semicolon
  | 40 => .Quote
  | 41 => .Backquote
  | 42 => .ShiftLeft
  | 43 => .Backslash
  | 44 => .KeyZ
  | 45 => .KeyX
  | 46 => .KeyC
  | 47 => .KeyV
  | 48 => .KeyB
  | 49 => .KeyN
  | 50 => .KeyM
  | 51 => .Comma
  | 52 => .Period
  | 53 => .Slash
  | 54 => .ShiftRight
  | 55 => .NumpadMultiply
  | 56 => .AltLeft
  | 57 => .Space
  | 58 => .CapsLock
  | 59 => .F1
  | 60 => .F2
  | 61 => .F3
  | 62 => .F4
  | 63 => .F5
  | 64 => .F6
  | 65 => .F7
  | 66 => .F8
  | 67 => .F9
  | 68 => .F10
  | 69 => .NumLock
  | 70 => .ScrollLock
  | 71 => .Numpad7
  | 72 => .Numpad8
  | 73 => .Numpad9
  | 74 => .NumpadSubtract
  | 75 => .Numpad4
  | 76 => .Numpad5
  | 77 => .Numpad6
  | 78 => .NumpadAdd
  | 79 => .Numpad1
  | 80 => .Numpad2
  | 81 => .Numpad3
  | 82 => .Numpad0
  | 83 => .NumpadDecimal
  | 85 => .Lang5
  | 86 => .IntlBackslash
  | 87 => .F11
  | 88 => .F12
  | 89 => .IntlRo
  | 90 => .Katakana
  | 91 => .Hiragana
  | 92 => .Convert
  | 93 => .KanaMode
  | 94 => .NonConvert
  | 96 => .NumpadEnter
  | 97 => .ControlRight
  | 98 => .NumpadDivide
  | 99 => .PrintScreen
  | 100 => .AltRight
  | 102 => .Home
  | 103 => .ArrowUp
  | 104 => .PageUp
  | 105 => .ArrowLeft
  | 106 => .ArrowRight
  | 107 => .End
  | 108 => .ArrowDown
  | 109 => .PageDown
  | 110 => .Insert
  | 111 => .Delete
  | 113 => .AudioVolumeMute
  | 114 => .AudioVolumeDown
  | 115 => .AudioVolumeUp
  | 116 => .Power
  | 117 => .NumpadEqual
  | 119 => .Pause
  | 121 => .NumpadComma
  | 122 => .Lang1
  | 123 => .Lang2
  | 124 => .IntlYen
  | 125 => .SuperLeft
  | 126 => .SuperRight
  | 127 => .ContextMenu
  | 128 => .BrowserStop
  | 129 => .Again
  | 130 => .Props
  | 131 => .Undo
  | 133 => .Copy
  | 134 => .Open
  | 135 => .Paste
  | 136 => .Find
  | 137 => .Cut
  | 138 => .Help
  | 140 => .LaunchApp2
  | 142 => .Sleep
  | 143 => .WakeUp
  | 155 => .LaunchMail
  | 156 => .BrowserFavorites
  | 157 => .LaunchApp1
  | 158 => .BrowserBack
  | 159 => .BrowserForward
  | 162 => .Eject
  | 163 => .MediaTrackNext
  | 164 => .MediaPlayPause
  | 165 => .MediaTrackPrevious
  | 166 => .MediaStop
  | 172 => .BrowserHome
  | 173 => .BrowserRefresh
  | 179 => .NumpadParenLeft
  | 180 => .NumpadParenRight
  | 183 => .F13
  | 184 => .F14
  | 185 => .F15
  | 186 => .F16
  | 187 => .F17
  | 188 => .F18
  | 189 => .F19
  | 190 => .F20
  | 191 => .F21
  | 192 => .F22
  | 193 => .F23
  | 194 => .F24
  | 205 => .Suspend
  | 217 => .BrowserSearch
  | 226 => .MediaSelect
  | _ => .Unidentified

/-- Raw hardware codes that have an arm in the `physical_key` table. -/
def physicalKeyMappedCodes : List Nat :=
  [1, 2, 3, 4, 5, 6, 7, 8, 9, 10, 11, 12, 13, 14, 15, 16, 17, 18, 19, 20, 21, 22, 23, 24, 25, 26, 27, 28, 29, 30, 31, 32, 33, 34, 35, 36, 37, 38, 39, 40, 41, 42, 43, 44, 45, 46, 47, 48, 49, 50, 51, 52, 53, 54, 55, 56, 57, 58, 59, 60, 61, 62, 63, 64, 65, 66, 67, 68, 69, 70, 71, 72, 73, 74, 75, 76, 77, 78, 79, 80, 81, 82, 83, 85, 86, 87, 88, 89, 90, 91, 92, 93, 94, 96, 97, 98, 99, 100, 102, 103, 104, 105, 106, 107, 108, 109, 110, 111, 113, 114, 115, 116, 117, 119, 121, 122, 123, 124, 125, 126, 127, 128, 129, 130, 131, 133, 134, 135, 136, 137, 138, 140, 142, 143, 155, 156, 157, 158, 159, 162, 163, 164, 165, 166, 172, 173, 179, 180, 183, 184, 185, 186, 187, 188, 189, 190, 191, 192, 193, 194, 205, 217, 226]

end IcedSctk

namespace IcedSctk

/-- Mirror of `keysym_to_vkey_location` (sctk_event.rs:933-943): keysym-table
lookup with the utf8 override when the lookup is unidentified. -/
def keysym_to_vkey_location (keysym : Nat) (utf8 : Option String) :
    Key × Location :=
  let key := keysym_to_key keysym
  let key := match key, utf8 with
    | .Unidentified, some u => Key.Character u
    | k, _ => k
  (key, keysym_location keysym)

/-- Mirror of the portable `mouse::Button`. -/
inductive MouseButton where
  | Left
  | Right
  | Middle
  | Back
  | Forward
  | Other (code : Nat)
deriving DecidableEq, Repr

/-- Modelled from the spec: `conversion::pointer_button_to_native` (the
`conversion` module is not among the provided sources). Per the spec this is
a button-code translation table that may yield no value for an unrecognized
raw button code. The recognized codes are the standard evdev mouse buttons. -/
def pointer_button_to_native (button : Nat) : Option MouseButton :=
  if button = 0x110 then some .Left
  else if button = 0x111 then some .Right
  else if button = 0x112 then some .Middle
  else if button = 0x113 then some .Back
  else if button = 0x114 then some .Forward
  else none

/-- Mirror of the scroll-source discriminant of `sctk` pointer axis events. -/
inductive AxisSource where
  | Wheel
  | Finger
  | Continuous
  | WheelTilt
deriving DecidableEq, Repr

/-- Per-direction payload of a pointer axis event: the continuous distance
and the discrete wheel-click count. -/
structure AxisScroll where
  absolute : Float
  discrete : Int

/-- Mirror of the portable `mouse::ScrollDelta`. -/
inductive ScrollDelta where
  | Lines (x y : Float)
  | Pixels (x y : Float)

/-- Modelled from the spec: `conversion::pointer_axis_to_native` (the
`conversion` module is not among the provided sources). Per the spec this is
a source-aware delta translation: wheel clicks become line deltas, the
continuous sources become pixel deltas, and a missing source yields no
value. -/
def pointer_axis_to_native (source : Option AxisSource)
    (horizontal vertical : AxisScroll) : Option ScrollDelta :=
  source.map fun s =>
    match s with
    | .Wheel => .Lines (Float.ofInt horizontal.discrete)
        (Float.ofInt vertical.discrete)
    | .WheelTilt => .Lines (Float.ofInt horizontal.discrete)
        (Float.ofInt vertical.discrete)
    | .Finger => .Pixels horizontal.absolute vertical.absolute
    | .Continuous => .Pixels horizontal.absolute vertical.absolute

/-- Mirror of `sctk::seat::pointer::PointerEventKind`. -/
inductive PointerEventKind where
  | Enter (serial : Nat)
  | Leave (serial : Nat)
  | Motion (time : Nat)
  | Press (time : Nat) (button : Nat) (serial : Nat)
  | Release (time : Nat) (button : Nat) (serial : Nat)
  | Axis (time : Nat) (horizontal vertical : AxisScroll)
      (source : Option AxisSource)

/-- Mirror of `sctk::seat::pointer::PointerEvent`; the surface handle and the
position accompany the kind. -/
structure PointerEvent where
  surface : ObjectId
  position : Float × Float
  kind : PointerEventKind

/-- Mirror of `sctk::seat::keyboard::KeyEvent`. -/
structure KeyEvent where
  time : Nat
  raw_code : Nat
  keysym : Nat
  utf8 : Option String

/-- Mirror of `KeyboardEventVariant` (sctk_event.rs:258-265). -/
inductive KeyboardEventVariant where
  | Leave (surface : ObjectId)
  | Enter (surface : ObjectId)
  | Press (ke : KeyEvent)
  | Repeat (ke : KeyEvent)
  | Release (ke : KeyEvent)
  | Modifiers (m : Modifiers)

/-- Mirror of `SeatEventVariant` (sctk_event.rs:250-255); capabilities are
carried as opaque payloads. -/
inductive SeatEventVariant where
  | New
  | Remove
  | NewCapability (cap : Nat) (id : ObjectId)
  | RemoveCapability (cap : Nat) (id : ObjectId)

/-- Abstraction of `sctk` `WindowConfigure` at the interface `to_native`
uses: the optional new size (`NonZeroU32` values carried as `Nat`) and the
result of `is_resizing()` (whether the configure state is an active
resize). -/
structure WindowConfigure where
  new_size : Option Nat × Option Nat
  is_resizing : Bool

/-- Mirror of `WindowEventVariant` (sctk_event.rs:268-286); payloads that
`to_native` only re-tags or ignores (capabilities, window state, viewports)
are carried as opaque numbers. -/
inductive WindowEventVariant where
  | Created (object : ObjectId) (surface : SurfaceId)
  | Close
  | WmCapabilities (caps : Nat)
  | ConfigureBounds (width height : Nat)
  | Configure (configure : WindowConfigure) (surface : ObjectId)
      (first : Bool)
  | StateChanged (s : Nat)
  | ScaleFactorChanged (factor : Float) (viewport : Option Nat)

/-- Mirror of `PopupEventVariant` (sctk_event.rs:289-302); the configure
payload is opaque since `to_native` ignores it. -/
inductive PopupEventVariant where
  | Created (object : ObjectId) (surface : SurfaceId)
  | Done
  | Configure (configure : Nat) (surface : ObjectId) (first : Bool)
  | RepositionionedPopup (token : Nat)
  | Size (width height : Nat)
  | ScaleFactorChanged (factor : Float) (viewport : Option Nat)

/-- Mirror of `LayerSurfaceEventVariant` (sctk_event.rs:305-314); the
configure payload is opaque since `to_native` ignores it. -/
inductive LayerSurfaceEventVariant where
  | Created (object : ObjectId) (surface : SurfaceId)
  | Done
  | Configure (configure : Nat) (surface : ObjectId) (first : Bool)
  | ScaleFactorChanged (factor : Float) (viewport : Option Nat)

/-- Mirror of `DataSourceEvent` (sctk_event.rs:196-217); DnD actions are
opaque payloads. -/
inductive DataSourceEvent where
  | DndActionAccepted (action : Nat)
  | MimeAccepted (mime : Option String)
  | DndFinished
  | DndCancelled
  | DndDropPerformed
  | SendSelectionData (mime_type : String)
  | SendDndData (mime_type : String)

/-- Mirror of `DndOfferEvent` (sctk_event.rs:220-247). -/
inductive DndOfferEvent where
  | Enter (x y : Float) (mime_types : List String)
  | Leave
  | Motion (x y : Float)
  | DropPerformed
  | Data (data : List Nat) (mime_type : String)
  | SourceActions (actions : Nat)
  | SelectedAction (action : Nat)

/-- Mirror of `SctkEvent` (sctk_event.rs:114-193): the closed platform event
taxonomy `to_native` consumes. Output info and session-lock configures are
opaque payloads. -/
inductive SctkEvent where
  | SeatEvent (variant : SeatEventVariant) (id : ObjectId)
  | PointerEvent (variant : PointerEvent) (ptr_id : ObjectId)
      (seat_id : ObjectId)
  | KeyboardEvent (variant : KeyboardEventVariant) (kbd_id : ObjectId)
      (seat_id : ObjectId)
  | WindowEvent (variant : WindowEventVariant) (id : ObjectId)
  | LayerSurfaceEvent (variant : LayerSurfaceEventVariant) (id : ObjectId)
  | PopupEvent (variant : PopupEventVariant) (toplevel_id : ObjectId)
      (parent_id : ObjectId) (id : ObjectId)
  | NewOutput (id : ObjectId) (info : Option Nat)
  | UpdateOutput (id : ObjectId) (info : Nat)
  | RemovedOutput (id : ObjectId)
  | ScaleFactorChanged (factor : Float) (id : ObjectId)
      (inner_size : Nat × Nat)
  | DataSource (event : DataSourceEvent)
  | DndOffer (event : DndOfferEvent) (surface : ObjectId)
  | SessionLocked
  | SessionLockFinished
  | SessionLockSurfaceCreated (surface : ObjectId) (native_id : SurfaceId)
  | SessionLockSurfaceConfigure (surface : ObjectId) (configure : Nat)
      (first : Bool)
  | SessionUnlocked

end IcedSctk

namespace IcedSctk

/-- Mirror of the platform-specific `wayland::LayerEvent` variants used by
`to_native`. -/
inductive LayerEvent where
  | Focused
  | Unfocused
  | Done
deriving DecidableEq, Repr

/-- Mirror of the platform-specific `wayland::PopupEvent` variants used by
`to_native`. -/
inductive NativePopupEvent where
  | Focused
  | Unfocused
  | Done
deriving DecidableEq, Repr

/-- Mirror of the platform-specific `wayland::SessionLockEvent` variants. -/
inductive SessionLockEvent where
  | Focused (surface : ObjectId) (id : SurfaceId)
  | Unfocused (surface : ObjectId) (id : SurfaceId)
  | Locked
  | Unlocked
  | Finished
deriving DecidableEq, Repr

/-- Mirror of the platform-specific `wayland::SeatEvent` variants. -/
inductive NativeSeatEvent where
  | Enter
  | Leave
deriving DecidableEq, Repr

/-- Mirror of the platform-specific `wayland::WindowEvent` variants used by
`to_native`; payloads stay opaque. -/
inductive NativeWindowEvent where
  | WmCapabilities (caps : Nat)
  | State (s : Nat)
deriving DecidableEq, Repr

/-- Mirror of the platform-specific `wayland::OutputEvent` variants. -/
inductive OutputEvent where
  | Created (info : Option Nat)
  | InfoUpdate (info : Nat)
  | Removed
deriving DecidableEq, Repr

/-- Mirror of the platform-specific `wayland::DndOfferEvent` variants. -/
inductive NativeDndOfferEvent where
  | Enter (mime_types : List String) (x y : Float)
  | Motion (x y : Float)
  | DropPerformed
  | Leave
  | DndData (data : List Nat) (mime_type : String)
  | SourceActions (actions : Nat)
  | SelectedAction (action : Nat)

/-- Mirror of the platform-specific `wayland::DataSourceEvent` variants. -/
inductive NativeDataSourceEvent where
  | DndDropPerformed
  | DndFinished
  | Cancelled
  | MimeAccepted (mime : Option String)
  | DndActionAccepted (action : Nat)
  | SendDndData (mime_type : String)
  | SendSelectionData (mime_type : String)
deriving DecidableEq, Repr

/-- Mirror of the `PlatformSpecific::Wayland` branch of normalized events. -/
inductive WaylandEvent where
  | Layer (e : LayerEvent) (surface : ObjectId) (id : SurfaceId)
  | Popup (e : NativePopupEvent) (surface : ObjectId) (id : SurfaceId)
  | SessionLock (e : SessionLockEvent)
  | Seat (e : NativeSeatEvent) (seat : ObjectId)
  | Window (e : NativeWindowEvent) (surface : ObjectId) (id : SurfaceId)
  | Output (e : OutputEvent) (id : ObjectId)
  | DndOffer (e : NativeDndOfferEvent)
  | DataSource (e : NativeDataSourceEvent)

/-- Mirror of the portable `Point` carried by cursor-moved events. -/
structure Point where
  x : Float
  y : Float

/-- Mirror of the portable `mouse::Event` variants used by `to_native`. -/
inductive MouseEvent where
  | CursorEntered
  | CursorLeft
  | CursorMoved (position : Point)
  | ButtonPressed (b : MouseButton)
  | ButtonReleased (b : MouseButton)
  | WheelScrolled (delta : ScrollDelta)

/-- Mirror of the portable `keyboard::Event` variants used by `to_native`. -/
inductive KeyboardEvent where
  | KeyPressed (key : Key) (location : Location)
      (physical_key : PhysicalKey) (text : Option String)
      (modifiers : NativeModifiers)
  | KeyReleased (key : Key) (location : Location)
      (physical_key : PhysicalKey) (modifiers : NativeModifiers)
  | ModifiersChanged (modifiers : NativeModifiers)
deriving DecidableEq, Repr

/-- Mirror of the portable `window::Event` variants used by `to_native`. -/
inductive WindowEvent where
  | Focused
  | Unfocused
  | CloseRequested
  | Resized (width height : Nat)
deriving DecidableEq, Repr

/-- Mirror of the normalized `iced_runtime::core::Event`. -/
inductive Event where
  | Mouse (e : MouseEvent)
  | Keyboard (e : KeyboardEvent)
  | Window (id : SurfaceId) (e : WindowEvent)
  | PlatformSpecific (e : WaylandEvent)

/-- Mirror of the match on the resolved identity inside the keyboard-leave
arm of `SctkEvent::to_native` (sctk_event.rs:440-484): which surface-specific
unfocus event, if any, a resolved identity contributes. -/
def keyboardLeaveFocus : SurfaceIdWrapper → ObjectId → Option Event
  | .LayerSurface i, surface =>
    some (.PlatformSpecific (.Layer .Unfocused surface i))
  | .Window i, _ => some (.Window i .Unfocused)
  | .Popup i, surface =>
    some (.PlatformSpecific (.Popup .Unfocused surface i))
  | .Dnd _, _ => none
  | .SessionLock i, surface =>
    some (.PlatformSpecific (.SessionLock (.Unfocused surface i)))

/-- Mirror of the match on the resolved identity inside the keyboard-enter
arm of `SctkEvent::to_native` (sctk_event.rs:493-537): which surface-specific
focus event, if any, a resolved identity contributes. -/
def keyboardEnterFocus : SurfaceIdWrapper → ObjectId → Option Event
  | .LayerSurface i, surface =>
    some (.PlatformSpecific (.Layer .Focused surface i))
  | .Window i, _ => some (.Window i .Focused)
  | .Popup i, surface =>
    some (.PlatformSpecific (.Popup .Focused surface i))
  | .Dnd _, _ => none
  | .SessionLock i, surface =>
    some (.PlatformSpecific (.SessionLock (.Focused surface i)))

end IcedSctk

namespace IcedSctk

/-- Mirror of `SctkEvent::to_native` (sctk_event.rs:367-930). The `self`
event, the `&mut Modifiers` reference and the two registries come in; the
normalized event list comes out together with the modifier state after the
call. The first component is `none` exactly when the Rust code would panic
(the `unwrap()` calls on the new size in the window-configure arm); every
other arm yields `some`. Iterator chains `opt.into_iter().chain([e]).collect()`
become `opt.toList ++ [e]`, and `opt.map(f).into_iter().collect()` becomes
`(opt.map f).toList`. -/
def toNative (e : SctkEvent) (modifiers : Modifiers)
    (surface_ids destroyed_surface_ids : Registry) :
    Option (List Event) × Modifiers :=
  match e with
  | .SeatEvent _ _ => (some [], modifiers)
  | .PointerEvent variant _ _ =>
    match variant.kind with
    | .Enter _ => (some [.Mouse .CursorEntered], modifiers)
    | .Leave _ => (some [.Mouse .CursorLeft], modifiers)
    | .Motion _ =>
      (some [.Mouse (.CursorMoved ⟨variant.position.1, variant.position.2⟩)],
        modifiers)
    | .Press _ button _ =>
      (some ((pointer_button_to_native button).map
        (fun b => Event.Mouse (.ButtonPressed b))).toList, modifiers)
    | .Release _ button _ =>
      (some ((pointer_button_to_native button).map
        (fun b => Event.Mouse (.ButtonReleased b))).toList, modifiers)
    | .Axis _ horizontal vertical source =>
      (some ((pointer_axis_to_native source horizontal vertical).map
        (fun a => Event.Mouse (.WheelScrolled a))).toList, modifiers)
  | .KeyboardEvent variant _ seat_id =>
    match variant with
    | .Leave surface =>
      (some (((surface_ids surface).bind
          (fun id => keyboardLeaveFocus id surface)).toList
        ++ [.PlatformSpecific (.Seat .Leave seat_id)]), modifiers)
    | .Enter surface =>
      (some (((surface_ids surface).bind
          (fun id => keyboardEnterFocus id surface)).toList
        ++ [.PlatformSpecific (.Seat .Enter seat_id)]), modifiers)
    | .Press ke =>
      let kl := keysym_to_vkey_location ke.keysym ke.utf8
      (some [.Keyboard (.KeyPressed kl.1 kl.2 (physical_key ke.raw_code)
        ke.utf8 (modifiers_to_native modifiers))], modifiers)
    | .Repeat ke =>
      let kl := keysym_to_vkey_location ke.raw_code ke.utf8
      (some [.Keyboard (.KeyPressed kl.1 kl.2 (physical_key ke.raw_code)
        ke.utf8 (modifiers_to_native modifiers))], modifiers)
    | .Release ke =>
      let kl := keysym_to_vkey_location ke.keysym ke.utf8
      (some [.Keyboard (.KeyReleased kl.1 kl.2 (physical_key ke.raw_code)
        (modifiers_to_native modifiers))], modifiers)
    | .Modifiers new_mods =>
      (some [.Keyboard (.ModifiersChanged (modifiers_to_native new_mods))],
        new_mods)
  | .WindowEvent variant surface =>
    match variant with
    | .Created _ _ => (some [], modifiers)
    | .Close =>
      (some ((destroyed_surface_ids surface).map
        (fun id => Event.Window id.inner .CloseRequested)).toList, modifiers)
    | .WmCapabilities caps =>
      (some ((surface_ids surface).map
        (fun id => Event.PlatformSpecific
          (.Window (.WmCapabilities caps) surface id.inner))).toList,
        modifiers)
    | .ConfigureBounds _ _ => (some [], modifiers)
    | .Configure configure csurface _ =>
      if configure.is_resizing then
        match surface_ids csurface with
        | some id =>
          match configure.new_size.1, configure.new_size.2 with
          | some width, some height =>
            (some [.Window id.inner (.Resized width height)], modifiers)
          | _, _ => (none, modifiers)
        | none => (some [], modifiers)
      else (some [], modifiers)
    | .ScaleFactorChanged _ _ => (some [], modifiers)
    | .StateChanged s =>
      (some ((surface_ids surface).map
        (fun id => Event.PlatformSpecific
          (.Window (.State s) surface id.inner))).toList, modifiers)
  | .LayerSurfaceEvent variant surface =>
    match variant with
    | .Done =>
      (some ((destroyed_surface_ids surface).map
        (fun id => Event.PlatformSpecific
          (.Layer .Done surface id.inner))).toList, modifiers)
    | _ => (some [], modifiers)
  | .PopupEvent variant _ _ surface =>
    match variant with
    | .Done =>
      (some ((destroyed_surface_ids surface).map
        (fun id => Event.PlatformSpecific
          (.Popup .Done surface id.inner))).toList, modifiers)
    | .Created _ _ => (some [], modifiers)
    | .Configure _ _ _ => (some [], modifiers)
    | .RepositionionedPopup _ => (some [], modifiers)
    | .Size _ _ => (some [], modifiers)
    | .ScaleFactorChanged _ _ => (some [], modifiers)
  | .NewOutput id info =>
    (some [.PlatformSpecific (.Output (.Created info) id)], modifiers)
  | .UpdateOutput id info =>
    (some [.PlatformSpecific (.Output (.InfoUpdate info) id)], modifiers)
  | .RemovedOutput id =>
    (some [.PlatformSpecific (.Output .Removed id)], modifiers)
  | .ScaleFactorChanged _ _ _ => (some [], modifiers)
  | .DndOffer event _ =>
    match event with
    | .Enter x y mime_types =>
      (some [.PlatformSpecific (.DndOffer (.Enter mime_types x y))],
        modifiers)
    | .Motion x y =>
      (some [.PlatformSpecific (.DndOffer (.Motion x y))], modifiers)
    | .DropPerformed =>
      (some [.PlatformSpecific (.DndOffer .DropPerformed)], modifiers)
    | .Leave => (some [.PlatformSpecific (.DndOffer .Leave)], modifiers)
    | .Data data mime_type =>
      (some [.PlatformSpecific (.DndOffer (.DndData data mime_type))],
        modifiers)
    | .SourceActions actions =>
      (some [.PlatformSpecific (.DndOffer (.SourceActions actions))],
        modifiers)
    | .SelectedAction action =>
      (some [.PlatformSpecific (.DndOffer (.SelectedAction action))],
        modifiers)
  | .DataSource event =>
    match event with
    | .DndDropPerformed =>
      (some [.PlatformSpecific (.DataSource .DndDropPerformed)], modifiers)
    | .DndFinished =>
      (some [.PlatformSpecific (.DataSource .DndFinished)], modifiers)
    | .DndCancelled =>
      (some [.PlatformSpecific (.DataSource .Cancelled)], modifiers)
    | .MimeAccepted mime_type =>
      (some [.PlatformSpecific (.DataSource (.MimeAccepted mime_type))],
        modifiers)
    | .DndActionAccepted action =>
      (some [.PlatformSpecific (.DataSource (.DndActionAccepted action))],
        modifiers)
    | .SendDndData mime_type =>
      (some [.PlatformSpecific (.DataSource (.SendDndData mime_type))],
        modifiers)
    | .SendSelectionData mime_type =>
      (some [.PlatformSpecific (.DataSource (.SendSelectionData mime_type))],
        modifiers)
  | .SessionLocked =>
    (some [.PlatformSpecific (.SessionLock .Locked)], modifiers)
  | .SessionLockFinished =>
    (some [.PlatformSpecific (.SessionLock .Finished)], modifiers)
  | .SessionLockSurfaceCreated _ _ => (some [], modifiers)
  | .SessionLockSurfaceConfigure _ _ _ => (some [], modifiers)
  | .SessionUnlocked =>
    (some [.PlatformSpecific (.SessionLock .Unlocked)], modifiers)

end IcedSctk

namespace IcedSctk

/-- Mirror of `core::clipboard::Kind`: the two clipboard kinds. -/
inductive Kind where
  | Standard
  | Primary
deriving DecidableEq, Repr

/-- Model of the external `smithay_clipboard::Clipboard` backend at the
interface `clipboard.rs` uses: per kind, loading either succeeds with text
or fails, and storing replaces that kind's content. -/
structure ClipboardBackend where
  std_content : Except Unit String
  primary_content : Except Unit String

/-- Load of the backend: `load()` for the standard kind, `load_primary()`
for the primary-selection kind. -/
def ClipboardBackend.load (b : ClipboardBackend) : Kind → Except Unit String
  | .Standard => b.std_content
  | .Primary => b.primary_content

/-- Store of the backend: `store()` or `store_primary()`. -/
def ClipboardBackend.store (b : ClipboardBackend) (kind : Kind)
    (contents : String) : ClipboardBackend :=
  match kind with
  | .Standard => { b with std_content := .ok contents }
  | .Primary => { b with primary_content := .ok contents }

/-- Mirror of `clipboard::State` (clipboard.rs:16-19). -/
inductive ClipboardState where
  | Connected (backend : ClipboardBackend)
  | Unavailable

/-- Mirror of `Clipboard` (clipboard.rs:12-14). -/
structure Clipboard where
  state : ClipboardState

/-- Mirror of `Clipboard::unconnected` (clipboard.rs:34-38). -/
def Clipboard.unconnected : Clipboard := ⟨.Unavailable⟩

/-- Mirror of `Clipboard::read` (clipboard.rs:41-53): the `Result::ok()`
call becomes `Except.toOption`. -/
def Clipboard.read (c : Clipboard) (kind : Kind) : Option String :=
  match c.state with
  | .Connected clipboard => (clipboard.load kind).toOption
  | .Unavailable => none

/-- Mirror of `Clipboard::write` (clipboard.rs:56-67); the store effect on
the backend is returned as the new clipboard value, and the unavailable arm
does nothing. -/
def Clipboard.write (c : Clipboard) (kind : Kind) (contents : String) :
    Clipboard :=
  match c.state with
  | .Connected clipboard => ⟨.Connected (clipboard.store kind contents)⟩
  | .Unavailable => c

end IcedSctk

namespace IcedSctk

/-- Claim C1: a keyboard-enter platform event always emits the seat-enter
event as the last element; it is preceded by exactly one surface-specific
focus event when the handle resolves in the live registry to a window
(portable window focused event), popup, layer surface or session lock
(platform-specific focused events), and by no focus event when the handle
resolves to a drag icon or does not resolve at all; keyboard-leave behaves
symmetrically with the unfocused counterparts and the seat-leave event. -/
theorem to_native_keyboard_enter_leave
    (m : Modifiers) (live dead : Registry) (k q s : ObjectId)
    (i : SurfaceId) :
    (live s = some (.Window i) →
      toNative (.KeyboardEvent (.Enter s) k q) m live dead
        = (some [.Window i .Focused, .PlatformSpecific (.Seat .Enter q)], m))
  ∧ (live s = some (.Popup i) →
      toNative (.KeyboardEvent (.Enter s) k q) m live dead
        = (some [.PlatformSpecific (.Popup .Focused s i),
            .PlatformSpecific (.Seat .Enter q)], m))
  ∧ (live s = some (.LayerSurface i) →
      toNative (.KeyboardEvent (.Enter s) k q) m live dead
        = (some [.PlatformSpecific (.Layer .Focused s i),
            .PlatformSpecific (.Seat .Enter q)], m))
  ∧ (live s = some (.SessionLock i) →
      toNative (.KeyboardEvent (.Enter s) k q) m live dead
        = (some [.PlatformSpecific (.SessionLock (.Focused s i)),
            .PlatformSpecific (.Seat .Enter q)], m))
  ∧ (live s = some (.Dnd i) →
      toNative (.KeyboardEvent (.Enter s) k q) m live dead
        = (some [.PlatformSpecific (.Seat .Enter q)], m))
  ∧ (live s = none →
      toNative (.KeyboardEvent (.Enter s) k q) m live dead
        = (some [.PlatformSpecific (.Seat .Enter q)], m))
  ∧ (live s = some (.Window i) →
      toNative (.KeyboardEvent (.Leave s) k q) m live dead
        = (some [.Window i .Unfocused,
            .PlatformSpecific (.Seat .Leave q)], m))
  ∧ (live s = some (.Popup i) →
      toNative (.KeyboardEvent (.Leave s) k q) m live dead
        = (some [.PlatformSpecific (.Popup .Unfocused s i),
            .PlatformSpecific (.Seat .Leave q)], m))
  ∧ (live s = some (.LayerSurface i) →
      toNative (.KeyboardEvent (.Leave s) k q) m live dead
        = (some [.PlatformSpecific (.Layer .Unfocused s i),
            .PlatformSpecific (.Seat .Leave q)], m))
  ∧ (live s = some (.SessionLock i) →
      toNative (.KeyboardEvent (.Leave s) k q) m live dead
        = (some [.PlatformSpecific (.SessionLock (.Unfocused s i)),
            .PlatformSpecific (.Seat .Leave q)], m))
  ∧ (live s = some (.Dnd i) →
      toNative (.KeyboardEvent (.Leave s) k q) m live dead
        = (some [.PlatformSpecific (.Seat .Leave q)], m))
  ∧ (live s = none →
      toNative (.KeyboardEvent (.Leave s) k q) m live dead
        = (some [.PlatformSpecific (.Seat .Leave q)], m)) := by
  refine ⟨?_, ?_, ?_, ?_, ?_, ?_, ?_, ?_, ?_, ?_, ?_, ?_⟩ <;>
    intro h <;>
    simp [toNative, h, keyboardEnterFocus, keyboardLeaveFocus]

/-- Witness for claim C1: keyboard-enter on a handle resolving to window 7
yields exactly the portable focused event for window 7 followed by the
seat-enter event. -/
theorem to_native_keyboard_enter_leave_instance :
    toNative (.KeyboardEvent (.Enter 3) 0 5)
      ⟨false, false, false, false, false, false⟩
      (fun x => if x = 3 then some (.Window 7) else none) (fun _ => none)
      = (some [.Window 7 .Focused, .PlatformSpecific (.Seat .Enter 5)],
        ⟨false, false, false, false, false, false⟩) :=
  (to_native_keyboard_enter_leave ⟨false, false, false, false, false, false⟩
    (fun x => if x = 3 then some (.Window 7) else none) (fun _ => none)
    0 5 3 7).1 rfl

end IcedSctk

namespace IcedSctk

/-- Claim C2, at the failing input: the repeat arm of `to_native` feeds the
raw hardware code, not the event keysym, into the keysym-table lookup
(sctk_event.rs:568-569), while the press and release arms apply the lookup
to the keysym as the claim states. For a repeat of the key with hardware
code 30 and keysym 97 and no utf8 text, the emitted logical key is the
lookup of 30, which is `Unidentified`, although the lookup applied to the
keysym 97 yields the character key; the same input through the press and
release arms carries the character key. -/
theorem to_native_repeat_uses_raw_code (m : Modifiers) (live dead : Registry)
    (k q : ObjectId) :
    keysym_to_key 97 = .Character ("a")
  ∧ keysym_to_key 30 = .Unidentified
  ∧ toNative (.KeyboardEvent (.Repeat ⟨0, 30, 97, none⟩) k q) m live dead
      = (some [.Keyboard (.KeyPressed .Unidentified .Standard .KeyA none
          (modifiers_to_native m))], m)
  ∧ toNative (.KeyboardEvent (.Press ⟨0, 30, 97, none⟩) k q) m live dead
      = (some [.Keyboard (.KeyPressed (.Character ("a")) .Standard .KeyA none
          (modifiers_to_native m))], m)
  ∧ toNative (.KeyboardEvent (.Release ⟨0, 30, 97, none⟩) k q) m live dead
      = (some [.Keyboard (.KeyReleased (.Character ("a")) .Standard .KeyA
          (modifiers_to_native m))], m) :=
  ⟨rfl, rfl, rfl, rfl, rfl⟩

/-- Claim C3: window-close, layer-surface-done and popup-done platform
events resolve the surface id through the destroyed registry; a handle
present there yields exactly one corresponding normalized event carrying
the resolved id, a handle absent from the destroyed registry yields the
empty sequence. -/
theorem to_native_close_done_destroyed
    (m : Modifiers) (live dead : Registry) (s t p : ObjectId)
    (w : SurfaceIdWrapper) :
    (dead s = some w →
      toNative (.WindowEvent .Close s) m live dead
        = (some [.Window w.inner .CloseRequested], m))
  ∧ (dead s = none →
      toNative (.WindowEvent .Close s) m live dead = (some [], m))
  ∧ (dead s = some w →
      toNative (.LayerSurfaceEvent .Done s) m live dead
        = (some [.PlatformSpecific (.Layer .Done s w.inner)], m))
  ∧ (dead s = none →
      toNative (.LayerSurfaceEvent .Done s) m live dead = (some [], m))
  ∧ (dead s = some w →
      toNative (.PopupEvent .Done t p s) m live dead
        = (some [.PlatformSpecific (.Popup .Done s w.inner)], m))
  ∧ (dead s = none →
      toNative (.PopupEvent .Done t p s) m live dead = (some [], m)) := by
  refine ⟨?_, ?_, ?_, ?_, ?_, ?_⟩ <;> intro h <;> simp [toNative, h]

/-- Witness for claim C3: a window-close event for a handle present only in
the destroyed registry still resolves and yields exactly one close-requested
event. -/
theorem to_native_close_done_destroyed_instance :
    toNative (.WindowEvent .Close 3)
      ⟨false, false, false, false, false, false⟩
      (fun _ => none) (fun x => if x = 3 then some (.Window 7) else none)
      = (some [.Window 7 .CloseRequested],
        ⟨false, false, false, false, false, false⟩) :=
  (to_native_close_done_destroyed ⟨false, false, false, false, false, false⟩
    (fun _ => none) (fun x => if x = 3 then some (.Window 7) else none)
    3 0 0 (.Window 7)).1 rfl

/-- Claim C4: a keyboard modifiers platform event replaces the tracked
modifier state with the new mask before the output event is built, emits
exactly one modifiers-changed event carrying the post-update mask, and a
key-press processed immediately afterwards (from the state the modifiers
event returned) carries a modifier snapshot equal to that mask. -/
theorem to_native_modifiers_update
    (m new : Modifiers) (live dead : Registry) (k q : ObjectId)
    (ke : KeyEvent) :
    toNative (.KeyboardEvent (.Modifiers new) k q) m live dead
      = (some [.Keyboard (.ModifiersChanged (modifiers_to_native new))], new)
  ∧ toNative (.KeyboardEvent (.Press ke) k q)
        (toNative (.KeyboardEvent (.Modifiers new) k q) m live dead).2
        live dead
      = (some [.Keyboard (.KeyPressed
          (keysym_to_vkey_location ke.keysym ke.utf8).1
          (keysym_to_vkey_location ke.keysym ke.utf8).2
          (physical_key ke.raw_code) ke.utf8 (modifiers_to_native new))],
        new) :=
  ⟨rfl, rfl⟩

end IcedSctk

namespace IcedSctk

/-- Claim C5: for a window configure platform event, a resized event is
synthesized exactly when the configure indicates an active resize and the
handle resolves in the live registry; under the precondition that an
actively-resizing configure carries both a new width and a new height the
dimension extraction never faults, while an actively-resizing configure
that resolves but misses a dimension faults (the modelled panic) instead of
silently defaulting. -/
theorem to_native_configure_resize
    (m : Modifiers) (live dead : Registry) (oid s : ObjectId)
    (cfg : WindowConfigure) (first : Bool) (i : SurfaceIdWrapper)
    (w h : Nat) :
    (cfg.is_resizing = true → live s = some i →
      cfg.new_size = (some w, some h) →
      toNative (.WindowEvent (.Configure cfg s first) oid) m live dead
        = (some [.Window i.inner (.Resized w h)], m))
  ∧ (cfg.is_resizing = false →
      toNative (.WindowEvent (.Configure cfg s first) oid) m live dead
        = (some [], m))
  ∧ (live s = none →
      toNative (.WindowEvent (.Configure cfg s first) oid) m live dead
        = (some [], m))
  ∧ ((cfg.is_resizing = true →
        (∃ wv, cfg.new_size.1 = some wv) ∧ (∃ hv, cfg.new_size.2 = some hv)) →
      (toNative (.WindowEvent (.Configure cfg s first) oid) m live dead).1
        ≠ none)
  ∧ (cfg.is_resizing = true → live s = some i →
      (cfg.new_size.1 = none ∨ cfg.new_size.2 = none) →
      (toNative (.WindowEvent (.Configure cfg s first) oid) m live dead).1
        = none) := by
  obtain ⟨⟨ow, oh⟩, r⟩ := cfg
  refine ⟨?_, ?_, ?_, ?_, ?_⟩
  · intro hr hl hsz
    obtain ⟨rfl, rfl⟩ : ow = some w ∧ oh = some h := by
      simpa [Prod.ext_iff] using hsz
    subst hr
    simp [toNative, hl]
  · intro hr; subst hr; simp [toNative]
  · intro hl
    cases r <;> simp [toNative, hl]
  · intro hdims
    cases r with
    | false => simp [toNative]
    | true =>
      obtain ⟨⟨wv, hw⟩, ⟨hv, hh⟩⟩ := hdims rfl
      simp only at hw hh
      subst hw; subst hh
      cases hls : live s <;> simp [toNative, hls]
  · intro hr hl hmiss
    subst hr
    rcases hmiss with hw | hh
    · simp only at hw; subst hw; simp [toNative, hl]
    · simp only at hh; subst hh
      cases ow <;> simp [toNative, hl]

end IcedSctk

namespace IcedSctk

/-- Witness for claim C5: an actively-resizing configure with both
dimensions present, on a handle resolving to window 7, yields exactly the
resized event. -/
theorem to_native_configure_resize_instance :
    toNative (.WindowEvent
        (.Configure ⟨(some 4, some 5), true⟩ 3 false) 0)
      ⟨false, false, false, false, false, false⟩
      (fun x => if x = 3 then some (.Window 7) else none) (fun _ => none)
      = (some [.Window 7 (.Resized 4 5)],
        ⟨false, false, false, false, false, false⟩) :=
  (to_native_configure_resize ⟨false, false, false, false, false, false⟩
    (fun x => if x = 3 then some (.Window 7) else none) (fun _ => none)
    0 3 ⟨(some 4, some 5), true⟩ false (.Window 7) 4 5).1 rfl rfl rfl

/-- Claim C6: every platform event other than the keyboard modifiers
variant leaves the tracked modifier state unchanged; the modifiers variant
is the only input whose processing replaces it, with the new mask. -/
theorem to_native_modifier_state_frame
    (e : SctkEvent) (m : Modifiers) (live dead : Registry) :
    (toNative e m live dead).2 = m
  ∨ ∃ nm k q, e = .KeyboardEvent (.Modifiers nm) k q
      ∧ (toNative e m live dead).2 = nm := by
  cases e with
  | SeatEvent variant id => exact Or.inl rfl
  | PointerEvent variant ptr seat =>
    obtain ⟨s, pos, kind⟩ := variant
    cases kind <;> exact Or.inl rfl
  | KeyboardEvent variant kbd seat =>
    cases variant with
    | Leave surface => exact Or.inl rfl
    | Enter surface => exact Or.inl rfl
    | Press ke => exact Or.inl rfl
    | Repeat ke => exact Or.inl rfl
    | Release ke => exact Or.inl rfl
    | Modifiers nm => exact Or.inr ⟨nm, kbd, seat, rfl, rfl⟩
  | WindowEvent variant id =>
    cases variant with
    | Created o su => exact Or.inl rfl
    | Close => exact Or.inl rfl
    | WmCapabilities caps => exact Or.inl rfl
    | ConfigureBounds w h => exact Or.inl rfl
    | Configure cfg s first =>
      left
      obtain ⟨⟨ow, oh⟩, r⟩ := cfg
      cases r with
      | false => rfl
      | true =>
        cases hls : live s with
        | none => simp [toNative, hls]
        | some w => cases ow <;> cases oh <;> simp [toNative, hls]
    | StateChanged s => exact Or.inl rfl
    | ScaleFactorChanged f v => exact Or.inl rfl
  | LayerSurfaceEvent variant id => cases variant <;> exact Or.inl rfl
  | PopupEvent variant t p id => cases variant <;> exact Or.inl rfl
  | NewOutput id info => exact Or.inl rfl
  | UpdateOutput id info => exact Or.inl rfl
  | RemovedOutput id => exact Or.inl rfl
  | ScaleFactorChanged f id sz => exact Or.inl rfl
  | DataSource event => cases event <;> exact Or.inl rfl
  | DndOffer event surface => cases event <;> exact Or.inl rfl
  | SessionLocked => exact Or.inl rfl
  | SessionLockFinished => exact Or.inl rfl
  | SessionLockSurfaceCreated surface nid => exact Or.inl rfl
  | SessionLockSurfaceConfigure surface c first => exact Or.inl rfl
  | SessionUnlocked => exact Or.inl rfl

/-- Claim C7: a pointer press or release whose raw button code the
button-code translation does not recognize, and a pointer axis event whose
source-aware delta translation yields no value, produce the empty
normalized-event sequence rather than an error. -/
theorem to_native_unrecognized_pointer
    (m : Modifiers) (live dead : Registry) (ptr seat surf : ObjectId)
    (pos : Float × Float) (t b serial : Nat)
    (hsc vsc : AxisScroll) (src : Option AxisSource) :
    (pointer_button_to_native b = none →
      toNative (.PointerEvent ⟨surf, pos, .Press t b serial⟩ ptr seat)
        m live dead = (some [], m))
  ∧ (pointer_button_to_native b = none →
      toNative (.PointerEvent ⟨surf, pos, .Release t b serial⟩ ptr seat)
        m live dead = (some [], m))
  ∧ (pointer_axis_to_native src hsc vsc = none →
      toNative (.PointerEvent ⟨surf, pos, .Axis t hsc vsc src⟩ ptr seat)
        m live dead = (some [], m)) := by
  refine ⟨?_, ?_, ?_⟩ <;> intro hnone <;> simp [toNative, hnone]

/-- Witness for claim C7: a pointer press with the unrecognized raw button
code 999 yields the empty normalized-event sequence. -/
theorem to_native_unrecognized_pointer_instance :
    toNative (.PointerEvent ⟨0, (0.0, 0.0), .Press 0 999 0⟩ 1 2)
      ⟨false, false, false, false, false, false⟩ (fun _ => none)
      (fun _ => none)
      = (some [], ⟨false, false, false, false, false, false⟩) :=
  (to_native_unrecognized_pointer ⟨false, false, false, false, false, false⟩
    (fun _ => none) (fun _ => none) 1 2 0 (0.0, 0.0) 0 999 0
    ⟨0.0, 0⟩ ⟨0.0, 0⟩ none).1 rfl

end IcedSctk

namespace IcedSctk

set_option maxRecDepth 4000 in
/-- Bounded part of the fallback property of the physical-key table: every
code below 227 (all arm literals are below 227) that has no arm yields the
unidentified sentinel. -/
theorem physical_key_unmapped_below (n : Nat) (hn : n < 227)
    (h : n ∉ physicalKeyMappedCodes) : physical_key n = .Unidentified := by
  revert hn h
  revert n
  decide

/-- Unbounded part of the fallback property: every code at or above 227 is
past the last arm of the table and yields the unidentified sentinel. -/
theorem physical_key_unmapped_above (k : Nat) :
    physical_key (k + 227) = .Unidentified := rfl

/-- Fallback property of the physical-key table: every code without an arm
yields the unidentified sentinel. -/
theorem physical_key_unmapped (n : Nat) (h : n ∉ physicalKeyMappedCodes) :
    physical_key n = .Unidentified := by
  by_cases hn : n < 227
  · exact physical_key_unmapped_below n hn h
  · obtain ⟨k, rfl⟩ : ∃ k, n = k + 227 := ⟨n - 227, by omega⟩
    exact physical_key_unmapped_above k

/-- Claim C8: the physical-key table is a pure total function on raw
hardware codes mapping 1 to escape and 30 to the letter-A key, yielding the
unidentified sentinel for every unmapped or deliberately-unsupported code
(9999, and the commented-out codes 95 and 101 among them), and repeated
application to the same input yields the identical output. -/
theorem physical_key_total_table (n : Nat) :
    physical_key 1 = .Escape
  ∧ physical_key 30 = .KeyA
  ∧ physical_key 9999 = .Unidentified
  ∧ physical_key 95 = .Unidentified
  ∧ physical_key 101 = .Unidentified
  ∧ (n ∉ physicalKeyMappedCodes → physical_key n = .Unidentified)
  ∧ physical_key n = physical_key n :=
  ⟨rfl, rfl, rfl, rfl, rfl, physical_key_unmapped n, rfl⟩

/-- Witness for claim C8 at the concrete unmapped code 9999. -/
theorem physical_key_total_table_instance :
    physical_key 9999 = PhysicalKey.Unidentified :=
  (physical_key_total_table 9999).2.2.1

/-- Claim C9: reading the clipboard returns no value both in the
unavailable state and when the connected backend load fails, without
distinguishing the two; writing on an unavailable clipboard is a no-op for
both the standard and the primary-selection kinds. -/
theorem clipboard_unavailable_degrades
    (b : ClipboardBackend) (kind : Kind) (s : String) :
    Clipboard.read Clipboard.unconnected kind = none
  ∧ (b.load kind = .error () →
      Clipboard.read ⟨.Connected b⟩ kind = none)
  ∧ (b.load kind = .error () →
      Clipboard.read ⟨.Connected b⟩ kind
        = Clipboard.read Clipboard.unconnected kind)
  ∧ Clipboard.write Clipboard.unconnected kind s = Clipboard.unconnected := by
  refine ⟨rfl, ?_, ?_, rfl⟩ <;>
    · intro hfail
      simp [Clipboard.read, Clipboard.unconnected, hfail, Except.toOption]

/-- Witness for claim C9: a connected backend whose standard-kind load
fails reads as no value. -/
theorem clipboard_unavailable_degrades_instance :
    Clipboard.read ⟨.Connected ⟨.error (), .ok ("x")⟩⟩ .Standard = none :=
  (clipboard_unavailable_degrades ⟨.error (), .ok ("x")⟩ .Standard ("x")).2.1
    rfl

/-- Claim C10: a window-close platform event whose handle is present in the
live registry but absent from the destroyed registry yields the empty
normalized-event sequence; close resolution consults only the destroyed
registry and never falls back to the live one. -/
theorem to_native_close_live_only_dropped
    (m : Modifiers) (live dead : Registry) (s : ObjectId)
    (i : SurfaceIdWrapper) (_hlive : live s = some i)
    (hdead : dead s = none) :
    toNative (.WindowEvent .Close s) m live dead = (some [], m) := by
  simp [toNative, hdead]

/-- Witness for claim C10: a close for a handle registered live as window 7
and not yet retired is silently dropped. -/
theorem to_native_close_live_only_dropped_instance :
    toNative (.WindowEvent .Close 3)
      ⟨false, false, false, false, false, false⟩
      (fun x => if x = 3 then some (.Window 7) else none) (fun _ => none)
      = (some [], ⟨false, false, false, false, false, false⟩) :=
  to_native_close_live_only_dropped
    ⟨false, false, false, false, false, false⟩
    (fun x => if x = 3 then some (.Window 7) else none) (fun _ => none)
    3 (.Window 7) rfl rfl

end IcedSctk
